import Mathlib

/-!
Verification development for the AcademiaMind study-notes generator.

The repository is a single-page application: text is typed or extracted from
an uploaded document, sent to a remote generation service, and the structured
result is displayed and recorded in a bounded, persisted history list.

This file gives a shallow embedding of the data model (`types.ts`), the
generation client (`services/geminiService.ts`) and the workflow handlers of
the main application component (`handleFileUpload`, `handleSubmit`, history
loading/persistence and history selection), and proves properties about them.
Asynchronous effects are embedded by passing each awaited step's outcome as an
explicit argument; browser storage is embedded as an explicit value; the text
of a service response is embedded by the outcome of parsing it (`none` for
text that is not valid JSON, `some j` for text parsing to the document `j`).
-/

namespace AcademiaMind

/-- JSON documents, the common currency of the service response, the
response-shape check and the persisted history. -/
inductive Json where
  | str : String → Json
  | num : Int → Json
  | bool : Bool → Json
  | null : Json
  | arr : List Json → Json
  | obj : List (String × Json) → Json
deriving Repr

/-- One multiple-choice question, as in `types.ts` (`studyQuestions.mcqs`). -/
structure Mcq where
  question : String
  options : List String
  answer : String
deriving Repr, DecidableEq

/-- One short-answer question, as in `types.ts` (`studyQuestions.shortAnswers`). -/
structure ShortAnswer where
  question : String
  answer : String
deriving Repr, DecidableEq

/-- The exam-style question, as in `types.ts` (`studyQuestions.examStyle`). -/
structure ExamStyle where
  question : String
  modelAnswer : String
deriving Repr, DecidableEq

/-- The `studyQuestions` object of `StudyNotes` in `types.ts`. -/
structure StudyQuestions where
  mcqs : List Mcq
  shortAnswers : List ShortAnswer
  examStyle : ExamStyle
deriving Repr, DecidableEq

/-- The `StudyNotes` interface of `types.ts`. -/
structure StudyNotes where
  topicOverview : String
  detailedExplanation : String
  keyPoints : List String
  examples : List String
  commonMistakes : List String
  examTips : List String
  studyQuestions : StudyQuestions
deriving Repr, DecidableEq

/-- The `NoteHistoryItem` interface of `types.ts`.  Timestamps are the
non-negative millisecond values produced by `Date.now()`. -/
structure NoteHistoryItem where
  id : String
  timestamp : Nat
  originalText : String
  notes : StudyNotes
deriving Repr, DecidableEq

/-! ### JSON encoding (the shape of `JSON.stringify` on these values) -/

/-- Encoding of an `Mcq` as a JSON object. -/
def Mcq.toJson (m : Mcq) : Json :=
  Json.obj [("question", Json.str m.question),
            ("options", Json.arr (m.options.map Json.str)),
            ("answer", Json.str m.answer)]

/-- Encoding of a `ShortAnswer` as a JSON object. -/
def ShortAnswer.toJson (s : ShortAnswer) : Json :=
  Json.obj [("question", Json.str s.question), ("answer", Json.str s.answer)]

/-- Encoding of an `ExamStyle` question as a JSON object. -/
def ExamStyle.toJson (e : ExamStyle) : Json :=
  Json.obj [("question", Json.str e.question), ("modelAnswer", Json.str e.modelAnswer)]

/-- Encoding of a `StudyQuestions` object. -/
def StudyQuestions.toJson (q : StudyQuestions) : Json :=
  Json.obj [("mcqs", Json.arr (q.mcqs.map Mcq.toJson)),
            ("shortAnswers", Json.arr (q.shortAnswers.map ShortAnswer.toJson)),
            ("examStyle", q.examStyle.toJson)]

/-- Encoding of a `StudyNotes` value. -/
def StudyNotes.toJson (n : StudyNotes) : Json :=
  Json.obj [("topicOverview", Json.str n.topicOverview),
            ("detailedExplanation", Json.str n.detailedExplanation),
            ("keyPoints", Json.arr (n.keyPoints.map Json.str)),
            ("examples", Json.arr (n.examples.map Json.str)),
            ("commonMistakes", Json.arr (n.commonMistakes.map Json.str)),
            ("examTips", Json.arr (n.examTips.map Json.str)),
            ("studyQuestions", n.studyQuestions.toJson)]

/-- Encoding of a `NoteHistoryItem`. -/
def NoteHistoryItem.toJson (it : NoteHistoryItem) : Json :=
  Json.obj [("id", Json.str it.id),
            ("timestamp", Json.num (it.timestamp : Int)),
            ("originalText", Json.str it.originalText),
            ("notes", it.notes.toJson)]

/-- Encoding of the whole history list, as written by
`localStorage.setItem(..., JSON.stringify(history))`. -/
def historyToJson (h : List NoteHistoryItem) : Json :=
  Json.arr (h.map NoteHistoryItem.toJson)

/-! ### JSON decoding (reading the required fields of the declared shape) -/

/-- A string field. -/
def Json.getStr : Json → Option String
  | Json.str s => some s
  | _ => none

/-- Decode every element of a list, failing if any element fails. -/
def decodeAll {α : Type} (dec : Json → Option α) : List Json → Option (List α)
  | [] => some []
  | x :: xs =>
    match dec x, decodeAll dec xs with
    | some y, some ys => some (y :: ys)
    | _, _ => none

/-- A non-negative integer field (a JavaScript timestamp). -/
def Json.getNat : Json → Option Nat
  | Json.num n => if n < 0 then none else some n.toNat
  | _ => none

/-- Field access on a JSON object; `none` on other documents. -/
def Json.getField (j : Json) (k : String) : Option Json :=
  match j with
  | Json.obj fields => fields.lookup k
  | _ => none

/-- An array of strings. -/
def Json.getStrList : Json → Option (List String)
  | Json.arr xs => decodeAll Json.getStr xs
  | _ => none

/-- Decoding an `Mcq`, requiring `question`, `options` and `answer`. -/
def Mcq.fromJson (j : Json) : Option Mcq :=
  match (j.getField "question").bind Json.getStr,
        (j.getField "options").bind Json.getStrList,
        (j.getField "answer").bind Json.getStr with
  | some q, some o, some a => some ⟨q, o, a⟩
  | _, _, _ => none

/-- Decoding a `ShortAnswer`, requiring `question` and `answer`. -/
def ShortAnswer.fromJson (j : Json) : Option ShortAnswer :=
  match (j.getField "question").bind Json.getStr,
        (j.getField "answer").bind Json.getStr with
  | some q, some a => some ⟨q, a⟩
  | _, _ => none

/-- Decoding an `ExamStyle`, requiring `question` and `modelAnswer`. -/
def ExamStyle.fromJson (j : Json) : Option ExamStyle :=
  match (j.getField "question").bind Json.getStr,
        (j.getField "modelAnswer").bind Json.getStr with
  | some q, some a => some ⟨q, a⟩
  | _, _ => none

/-- Decoding the optional list field shared by the nested question lists. -/
def Json.getListOf {α : Type} (dec : Json → Option α) : Json → Option (List α)
  | Json.arr xs => decodeAll dec xs
  | _ => none

/-- Decoding a `StudyQuestions`, requiring `mcqs`, `shortAnswers`, `examStyle`. -/
def StudyQuestions.fromJson (j : Json) : Option StudyQuestions :=
  match (j.getField "mcqs").bind (Json.getListOf Mcq.fromJson),
        (j.getField "shortAnswers").bind (Json.getListOf ShortAnswer.fromJson),
        (j.getField "examStyle").bind ExamStyle.fromJson with
  | some m, some s, some e => some ⟨m, s, e⟩
  | _, _, _ => none

/-- Decoding a `StudyNotes`, requiring every top-level field of the schema. -/
def StudyNotes.fromJson (j : Json) : Option StudyNotes :=
  match (j.getField "topicOverview").bind Json.getStr,
        (j.getField "detailedExplanation").bind Json.getStr,
        (j.getField "keyPoints").bind Json.getStrList,
        (j.getField "examples").bind Json.getStrList,
        (j.getField "commonMistakes").bind Json.getStrList,
        (j.getField "examTips").bind Json.getStrList,
        (j.getField "studyQuestions").bind StudyQuestions.fromJson with
  | some t, some d, some k, some ex, some cm, some et, some sq =>
      some ⟨t, d, k, ex, cm, et, sq⟩
  | _, _, _, _, _, _, _ => none

/-- Decoding a `NoteHistoryItem`. -/
def NoteHistoryItem.fromJson (j : Json) : Option NoteHistoryItem :=
  match (j.getField "id").bind Json.getStr,
        (j.getField "timestamp").bind Json.getNat,
        (j.getField "originalText").bind Json.getStr,
        (j.getField "notes").bind StudyNotes.fromJson with
  | some i, some t, some o, some n => some ⟨i, t, o, n⟩
  | _, _, _, _ => none

/-- Decoding a stored history document as an array of items. -/
def historyFromJson : Json → Option (List NoteHistoryItem)
  | Json.arr xs => decodeAll NoteHistoryItem.fromJson xs
  | _ => none

/-- Whether a parsed response document matches the declared `StudyNotes`
response schema: all required top-level and nested fields present with the
declared types. -/
def matchesStudyNotesShape (j : Json) : Bool :=
  (StudyNotes.fromJson j).isSome

/-! ### The generation client (`services/geminiService.ts`)

`generateStudyNotes` awaits the remote call and then runs
`JSON.parse(response.text)` inside a `try`; the parsed value is returned
after a type cast that performs no runtime check, and a parse exception is
translated into one fixed user-facing error message.  The response text is
embedded by its parse outcome: `none` when `JSON.parse` throws (the text is
not valid JSON), `some j` when it parses to the document `j`. -/

/-- The user-facing message thrown by `generateStudyNotes` when the response
text cannot be parsed as JSON. -/
def responseMalformedMessage : String :=
  "I had trouble structuring those notes. Please try pasting shorter content or checking the text quality."

/-- The parse-and-return step of `generateStudyNotes`: `JSON.parse` in a
`try/catch`, followed by an unchecked cast of the parsed value. -/
def generateStudyNotes (parsedResponse : Option Json) : Except String Json :=
  match parsedResponse with
  | some j => Except.ok j
  | none => Except.error responseMalformedMessage

/-! ### Document text extraction (`handleFileUpload`, pdf branch)

For a PDF, the handler loops `i = 1 .. numPages` in order and appends, for
each page, the page's text-content fragments joined by single spaces,
followed by a newline.  A PDF document is embedded as its list of pages,
each page being its list of text fragments. -/

/-- PDF extraction as implemented: `fullText += items.join(" ") + "\n"` for
each page in order, starting from the empty string. -/
def extractPdfText (pages : List (List String)) : String :=
  pages.foldl (fun acc frags => acc ++ String.intercalate " " frags ++ "\n") ""

/-- The extraction result as worded by the spec sentence for the pdf case:
pages in page order, in-page fragments joined by single spaces, and a newline
only between consecutive pages, nothing else added. -/
def extractPdfTextClaimed : List (List String) → String
  | [] => ""
  | [p] => String.intercalate " " p
  | p :: ps => String.intercalate " " p ++ "\n" ++ extractPdfTextClaimed ps

/-! ### Application state and workflow handlers (main component)

The component state relevant to the workflow claims: the input text, the
loading flag, the error slot, the current notes and the history list.
Presentation-only state (theme, upload menu, loading-message index) is
omitted.  Each handler is embedded as a function from the pre-state and the
outcomes of its awaited steps to the post-state, together with the number of
generation-client calls it performs; `Date.now()` is passed as `now`. -/

/-- The workflow-relevant component state. -/
structure AppState where
  inputText : String
  loading : Bool
  error : Option String
  notes : Option StudyNotes
  history : List NoteHistoryItem
deriving Repr, DecidableEq

/-- The history item built on a successful generation:
`{ id: Date.now().toString(), timestamp: Date.now(), originalText, notes }`. -/
def mkNoteHistoryItem (now : Nat) (text : String) (n : StudyNotes) : NoteHistoryItem :=
  { id := toString now, timestamp := now, originalText := text, notes := n }

/-- The history update on a successful generation:
`[item, ...prev].slice(0, 10)`. -/
def recordHistory (item : NoteHistoryItem) (prev : List NoteHistoryItem) : List NoteHistoryItem :=
  (item :: prev).take 10

/-- Blankness test used by both handlers: `!text.trim()` in the source is
truthy exactly when the string trims to the empty string, i.e. when every
character is whitespace.  This executable form is used so that concrete
instances evaluate. -/
def isBlank (s : String) : Bool := s.data.all Char.isWhitespace

/-- The message thrown by `handleFileUpload` when the extracted text trims
to the empty string. -/
def emptyDocumentMessage : String := "Document appears to be empty."

/-- Result of `handleSubmit`: the post-state, how many times the generation
client was called, and whether the handler entered the loading state at all. -/
structure SubmitResult where
  state : AppState
  genCalls : Nat
  enteredSubmitting : Bool
deriving Repr, DecidableEq

/-- The typed-text submit handler.  `if (!inputText.trim()) return;` guards
everything; otherwise the handler sets loading, clears the error, awaits the
generation (outcome `gen`), and on success stores the notes and prepends a
history item, on failure stores the error message; `finally` clears loading. -/
def handleSubmit (st : AppState) (now : Nat) (gen : Except String StudyNotes) : SubmitResult :=
  if isBlank st.inputText then
    { state := st, genCalls := 0, enteredSubmitting := false }
  else
    let st1 : AppState := { st with loading := true, error := none }
    match gen with
    | Except.ok generatedNotes =>
        { state := { st1 with
            notes := some generatedNotes,
            history := recordHistory (mkNoteHistoryItem now st.inputText generatedNotes) st1.history,
            loading := false },
          genCalls := 1, enteredSubmitting := true }
    | Except.error msg =>
        { state := { st1 with error := some msg, loading := false },
          genCalls := 1, enteredSubmitting := true }

/-- Result of `handleFileUpload`: the post-state and the number of
generation-client calls. -/
structure UploadResult where
  state : AppState
  genCalls : Nat
deriving Repr, DecidableEq

/-- The file-upload handler.  `extraction` is the outcome of the extract step
(`Except.error` when the underlying library threw, carrying the surfaced
message).  The handler sets loading and clears the error, then: an extraction
failure is caught without calling the generator; text trimming to empty
throws "Document appears to be empty." before the generator is called;
otherwise the extracted text is written to the input slot, the generation is
awaited, and success prepends a history item while failure stores the error
message; `finally` clears loading. -/
def handleFileUpload (st : AppState) (now : Nat)
    (extraction : Except String String) (gen : Except String StudyNotes) : UploadResult :=
  let st0 : AppState := { st with loading := true, error := none }
  match extraction with
  | Except.error msg =>
      { state := { st0 with error := some msg, loading := false }, genCalls := 0 }
  | Except.ok extractedText =>
      if isBlank extractedText then
        { state := { st0 with error := some emptyDocumentMessage, loading := false },
          genCalls := 0 }
      else
        let st1 : AppState := { st0 with inputText := extractedText }
        match gen with
        | Except.ok generatedNotes =>
            { state := { st1 with
                notes := some generatedNotes,
                history := recordHistory (mkNoteHistoryItem now extractedText generatedNotes) st1.history,
                loading := false },
              genCalls := 1 }
        | Except.error msg =>
            { state := { st1 with error := some msg, loading := false }, genCalls := 1 }

/-- Selecting a history entry (the sidebar button's click handler):
`setNotes(item.notes); setInputText(item.originalText)` and a scroll, which
is presentation-only.  No other state is touched. -/
def selectHistoryItem (st : AppState) (item : NoteHistoryItem) : AppState :=
  { st with notes := some item.notes, inputText := item.originalText }

/-- Loading history at mount.  The stored value is embedded as
`none` when the storage key is absent, and otherwise by the outcome of
`JSON.parse` on the stored string (`some none` when parsing throws,
`some (some j)` when it parses to `j`).  The result is the history value the
component ends up with (the parsed document, or the initial empty array when
`setHistory` is never reached) paired with the error slot after loading,
which the effect never writes: a parse failure is only logged. -/
def loadHistory (stored : Option (Option Json)) : Json × Option String :=
  match stored with
  | some (some j) => (j, none)
  | _ => (Json.arr [], none)

/-! ### Round-trip lemmas for the stored history -/

theorem decodeAll_map_of_roundtrip {α : Type} (dec : Json → Option α) (enc : α → Json)
    (l : List α) (h : ∀ b, dec (enc b) = some b) :
    decodeAll dec (l.map enc) = some l := by
  induction l with
  | nil => rfl
  | cons x xs ih => simp [decodeAll, h, ih]

theorem getNat_natCast (t : Nat) : Json.getNat (Json.num (t : Int)) = some t := by
  simp only [Json.getNat]
  rw [if_neg (by exact Int.not_lt.mpr (Int.natCast_nonneg t))]
  simp

theorem decodeAll_getStr_map_str (l : List String) :
    decodeAll Json.getStr (l.map Json.str) = some l :=
  decodeAll_map_of_roundtrip Json.getStr Json.str l (fun _ => rfl)

theorem mcq_fromJson_roundtrip (m : Mcq) : Mcq.fromJson m.toJson = some m := by
  simp [Mcq.fromJson, Mcq.toJson, Json.getField, List.lookup, Json.getStr,
    Json.getStrList, decodeAll_getStr_map_str]

theorem shortAnswer_fromJson_roundtrip (s : ShortAnswer) :
    ShortAnswer.fromJson s.toJson = some s := by
  simp [ShortAnswer.fromJson, ShortAnswer.toJson, Json.getField, List.lookup, Json.getStr]

theorem examStyle_fromJson_roundtrip (e : ExamStyle) :
    ExamStyle.fromJson e.toJson = some e := by
  simp [ExamStyle.fromJson, ExamStyle.toJson, Json.getField, List.lookup, Json.getStr]

theorem studyQuestions_fromJson_roundtrip (q : StudyQuestions) :
    StudyQuestions.fromJson q.toJson = some q := by
  simp [StudyQuestions.fromJson, StudyQuestions.toJson, Json.getField, List.lookup,
    Json.getListOf, decodeAll_map_of_roundtrip Mcq.fromJson Mcq.toJson _ mcq_fromJson_roundtrip,
    decodeAll_map_of_roundtrip ShortAnswer.fromJson ShortAnswer.toJson _ shortAnswer_fromJson_roundtrip,
    examStyle_fromJson_roundtrip]

theorem studyNotes_fromJson_roundtrip (n : StudyNotes) :
    StudyNotes.fromJson n.toJson = some n := by
  simp [StudyNotes.fromJson, StudyNotes.toJson, Json.getField, List.lookup, Json.getStr,
    Json.getStrList, decodeAll_getStr_map_str, studyQuestions_fromJson_roundtrip]

theorem noteHistoryItem_fromJson_roundtrip (it : NoteHistoryItem) :
    NoteHistoryItem.fromJson it.toJson = some it := by
  simp [NoteHistoryItem.fromJson, NoteHistoryItem.toJson, Json.getField, List.lookup,
    Json.getStr, getNat_natCast, studyNotes_fromJson_roundtrip]

theorem historyFromJson_historyToJson (h : List NoteHistoryItem) :
    historyFromJson (historyToJson h) = some h := by
  simp only [historyFromJson, historyToJson]
  exact decodeAll_map_of_roundtrip NoteHistoryItem.fromJson NoteHistoryItem.toJson h
    noteHistoryItem_fromJson_roundtrip

/-! ### Injectivity of the decimal rendering used for `id` values

History item ids are `Date.now().toString()`.  The decimal rendering of a
natural number is injective; this underpins the amended uniqueness claim. -/

/-- Decimal digit characters of a natural number, most significant first
(the character list underlying `Nat.repr`). -/
def natChars (n : Nat) : List Char :=
  if n < 10 then [Nat.digitChar n]
  else natChars (n / 10) ++ [Nat.digitChar (n % 10)]
termination_by n
decreasing_by exact Nat.div_lt_self (by omega) (by omega)

theorem natChars_ne_nil (n : Nat) : natChars n ≠ [] := by
  rw [natChars]
  split <;> simp

theorem digitChar_inj (a b : Nat) (ha : a < 10) (hb : b < 10) :
    Nat.digitChar a = Nat.digitChar b → a = b := by
  interval_cases a <;> interval_cases b <;> decide

theorem toDigitsCore_eq_natChars (f : Nat) :
    ∀ (n : Nat) (acc : List Char), n < f →
      Nat.toDigitsCore 10 f n acc = natChars n ++ acc := by
  induction f with
  | zero => intro n acc h; omega
  | succ f ih =>
    intro n acc h
    simp only [Nat.toDigitsCore]
    by_cases h0 : n / 10 = 0
    · rw [if_pos h0]
      have hn : n < 10 := (Nat.div_eq_zero_iff (by omega)).mp h0
      rw [natChars, if_pos hn, Nat.mod_eq_of_lt hn]
      rfl
    · rw [if_neg h0]
      have hn : ¬ n < 10 := fun hlt => h0 ((Nat.div_eq_zero_iff (by omega)).mpr hlt)
      have hdiv : n / 10 < f := by
        have h1 : n / 10 < n := Nat.div_lt_self (by omega) (by omega)
        omega
      rw [ih (n / 10) _ hdiv]
      conv_rhs => rw [natChars, if_neg hn]
      simp [List.append_assoc]

theorem natChars_lt (n : Nat) (h : n < 10) : natChars n = [Nat.digitChar n] := by
  rw [natChars, if_pos h]

theorem natChars_ge (n : Nat) (h : ¬ n < 10) :
    natChars n = natChars (n / 10) ++ [Nat.digitChar (n % 10)] := by
  conv_lhs => rw [natChars]
  rw [if_neg h]

theorem natChars_injective : ∀ m n : Nat, natChars m = natChars n → m = n := by
  intro m
  induction m using Nat.strong_induction_on with
  | _ m ih =>
    intro n h
    by_cases hm : m < 10 <;> by_cases hn : n < 10
    · rw [natChars_lt m hm, natChars_lt n hn] at h
      simp only [List.cons.injEq, and_true] at h
      exact digitChar_inj m n hm hn h
    · rw [natChars_lt m hm, natChars_ge n hn] at h
      have hlen := congrArg List.length h
      simp only [List.length_cons, List.length_nil, List.length_append] at hlen
      have h0 : (natChars (n / 10)).length = 0 := by omega
      exact absurd (List.length_eq_zero.mp h0) (natChars_ne_nil (n / 10))
    · rw [natChars_ge m hm, natChars_lt n hn] at h
      have hlen := congrArg List.length h
      simp only [List.length_cons, List.length_nil, List.length_append] at hlen
      have h0 : (natChars (m / 10)).length = 0 := by omega
      exact absurd (List.length_eq_zero.mp h0) (natChars_ne_nil (m / 10))
    · rw [natChars_ge m hm, natChars_ge n hn] at h
      obtain ⟨h1, h2⟩ := List.append_inj' h (by simp)
      have e1 : m / 10 = n / 10 :=
        ih (m / 10) (Nat.div_lt_self (by omega) (by omega)) (n / 10) h1
      simp only [List.cons.injEq, and_true] at h2
      have e2 : m % 10 = n % 10 :=
        digitChar_inj _ _ (Nat.mod_lt _ (by omega)) (Nat.mod_lt _ (by omega)) h2
      omega

theorem natRepr_injective (m n : Nat) (h : Nat.repr m = Nat.repr n) : m = n := by
  have hd : Nat.toDigitsCore 10 (m + 1) m [] = Nat.toDigitsCore 10 (n + 1) n [] :=
    congrArg String.data h
  rw [toDigitsCore_eq_natChars (m + 1) m [] (Nat.lt_succ_self m),
      toDigitsCore_eq_natChars (n + 1) n [] (Nat.lt_succ_self n),
      List.append_nil, List.append_nil] at hd
  exact natChars_injective m n hd

/-! ### Shape of the extracted PDF text -/

theorem extractPdfText_foldl_acc (ps : List (List String)) (acc : String) :
    ps.foldl (fun a frags => a ++ String.intercalate " " frags ++ "\n") acc
      = acc ++ ps.foldl (fun a frags => a ++ String.intercalate " " frags ++ "\n") "" := by
  induction ps generalizing acc with
  | nil => simp [String.append_empty]
  | cons p ps ih =>
    simp only [List.foldl_cons]
    rw [ih (acc ++ String.intercalate " " p ++ "\n"),
        ih ("" ++ String.intercalate " " p ++ "\n")]
    simp [String.empty_append, String.append_assoc]

theorem extractPdfText_cons (p : List String) (ps : List (List String)) :
    extractPdfText (p :: ps)
      = String.intercalate " " p ++ "\n" ++ extractPdfText ps := by
  simp only [extractPdfText, List.foldl_cons]
  rw [extractPdfText_foldl_acc]
  simp [String.empty_append]

/-! ### Capacity of the history list -/

theorem recordHistory_length_le (it : NoteHistoryItem) (h : List NoteHistoryItem) :
    (recordHistory it h).length ≤ 10 := by
  simp [recordHistory]

theorem foldl_recordHistory_length_le (inserts : List NoteHistoryItem) :
    ∀ init : List NoteHistoryItem, inserts ≠ [] →
      (inserts.foldl (fun h it => recordHistory it h) init).length ≤ 10 := by
  induction inserts with
  | nil => intro init hne; exact absurd rfl hne
  | cons a rest ih =>
    intro init _
    simp only [List.foldl_cons]
    cases rest with
    | nil => simpa using recordHistory_length_le a init
    | cons b r => exact ih (recordHistory a init) (by simp)

/-! ### Concrete values used by the witnesses -/

/-- A concrete `StudyNotes` value. -/
def sampleNotes : StudyNotes :=
  { topicOverview := "Photosynthesis"
    detailedExplanation := "Plants convert light into chemical energy."
    keyPoints := ["chlorophyll absorbs light"]
    examples := ["a leaf in sunlight"]
    commonMistakes := ["confusing respiration with photosynthesis"]
    examTips := ["define every term"]
    studyQuestions :=
      { mcqs := [{ question := "Where does it occur?"
                   options := ["chloroplast", "mitochondrion"]
                   answer := "chloroplast" }]
        shortAnswers := [{ question := "Name the pigment.", answer := "Chlorophyll" }]
        examStyle := { question := "Explain the light reactions."
                       modelAnswer := "They split water and produce ATP." } } }

/-- A concrete pre-state with non-blank input text and empty history. -/
def sampleState : AppState :=
  { inputText := "Photosynthesis converts light."
    loading := false
    error := none
    notes := none
    history := [] }

/-- A concrete history item. -/
def sampleItem : NoteHistoryItem := mkNoteHistoryItem 5 "sample text" sampleNotes

/-- A parsed response document that is valid JSON but does not match the
declared `StudyNotes` shape. -/
def badResponseJson : Json := Json.obj [("foo", Json.num 1)]

/-! ### Claim theorems -/

/-- C1: every successful generation, on the typed-text and on the file-upload
path, updates the history by prepending exactly one new item and truncating
to the first 10 elements (`recordHistory`); `recordHistory` places the new
item at the front and keeps the first nine previous items, a sublist of the
previous history so relative order is preserved; and after any non-empty
sequence of insertions the history length is at most 10. -/
theorem history_insertion_bounded_and_ordered
    (item : NoteHistoryItem) (prev : List NoteHistoryItem)
    (inserts : List NoteHistoryItem) (init : List NoteHistoryItem)
    (st : AppState) (now : Nat) (n : StudyNotes) (txt : String)
    (hne : inserts ≠ []) (hsub : isBlank st.inputText = false)
    (hup : isBlank txt = false) :
    (handleSubmit st now (Except.ok n)).state.history
        = recordHistory (mkNoteHistoryItem now st.inputText n) st.history ∧
    (handleFileUpload st now (Except.ok txt) (Except.ok n)).state.history
        = recordHistory (mkNoteHistoryItem now txt n) st.history ∧
    recordHistory item prev = item :: prev.take 9 ∧
    List.Sublist (prev.take 9) prev ∧
    (inserts.foldl (fun h it => recordHistory it h) init).length ≤ 10 := by
  refine ⟨?_, ?_, rfl, List.take_sublist 9 prev,
    foldl_recordHistory_length_le inserts init hne⟩
  · simp [handleSubmit, hsub]
  · simp [handleFileUpload, hup]

theorem history_insertion_bounded_and_ordered_witness :
    ([sampleItem] : List NoteHistoryItem) ≠ [] ∧
    isBlank sampleState.inputText = false ∧
    isBlank "uploaded document text" = false ∧
    ((handleSubmit sampleState 7 (Except.ok sampleNotes)).state.history
        = recordHistory (mkNoteHistoryItem 7 sampleState.inputText sampleNotes)
            sampleState.history ∧
     (handleFileUpload sampleState 7 (Except.ok "uploaded document text")
          (Except.ok sampleNotes)).state.history
        = recordHistory (mkNoteHistoryItem 7 "uploaded document text" sampleNotes)
            sampleState.history ∧
     recordHistory sampleItem [] = sampleItem :: ([] : List NoteHistoryItem).take 9 ∧
     List.Sublist (([] : List NoteHistoryItem).take 9) ([] : List NoteHistoryItem) ∧
     (([sampleItem] : List NoteHistoryItem).foldl
        (fun h it => recordHistory it h) []).length ≤ 10) :=
  ⟨by simp, by decide, by decide,
   history_insertion_bounded_and_ordered sampleItem [] [sampleItem] []
     sampleState 7 sampleNotes "uploaded document text"
     (by simp) (by decide) (by decide)⟩

/-- C2 counterexample: a response that parses as JSON but does not match the
declared `StudyNotes` shape (all required fields absent) is nevertheless
returned successfully by the generation client — `generateStudyNotes` does
not fail on it, contradicting the claim that it fails exactly when the
response is not JSON matching the expected shape. -/
theorem generate_accepts_shape_mismatch :
    matchesStudyNotesShape badResponseJson = false ∧
    generateStudyNotes (some badResponseJson) = Except.ok badResponseJson := by
  exact ⟨rfl, rfl⟩

/-- C2 amended: `generateStudyNotes` fails — with the fixed user-facing
message suggesting shorter or cleaner input — exactly when the response text
is not parseable as JSON at all; the parsed document's shape is not validated
locally.  On that failure no item is added to the history on either workflow
path. -/
theorem generate_fails_iff_unparseable
    (resp : Option Json) (st : AppState) (now : Nat) (msg : String)
    (hne : isBlank st.inputText = false) :
    ((generateStudyNotes resp = Except.error responseMalformedMessage) ↔ resp = none) ∧
    (handleSubmit st now (Except.error msg)).state.history = st.history ∧
    (handleFileUpload st now (Except.ok st.inputText)
        (Except.error msg)).state.history = st.history := by
  refine ⟨?_, ?_, ?_⟩
  · cases resp <;> simp [generateStudyNotes]
  · simp [handleSubmit, hne]
  · simp [handleFileUpload, hne]

theorem generate_fails_iff_unparseable_witness :
    isBlank sampleState.inputText = false ∧
    (((generateStudyNotes none = Except.error responseMalformedMessage) ↔
        (none : Option Json) = none) ∧
     (handleSubmit sampleState 7 (Except.error "network down")).state.history
        = sampleState.history ∧
     (handleFileUpload sampleState 7 (Except.ok sampleState.inputText)
          (Except.error "network down")).state.history = sampleState.history) :=
  ⟨by decide,
   generate_fails_iff_unparseable none sampleState 7 "network down" (by decide)⟩

/-- C3: when the extracted text of an uploaded file trims to the empty
string, the upload handler fails with the empty-document message before the
generation client is called: zero generation calls, no history change, and
the error slot holds exactly that message. -/
theorem upload_empty_document_no_generation
    (st : AppState) (now : Nat) (txt : String) (gen : Except String StudyNotes)
    (hblank : isBlank txt = true) :
    (handleFileUpload st now (Except.ok txt) gen).genCalls = 0 ∧
    (handleFileUpload st now (Except.ok txt) gen).state.history = st.history ∧
    (handleFileUpload st now (Except.ok txt) gen).state.error
        = some emptyDocumentMessage := by
  refine ⟨?_, ?_, ?_⟩ <;> simp [handleFileUpload, hblank]

theorem upload_empty_document_no_generation_witness :
    isBlank "  " = true ∧
    ((handleFileUpload sampleState 7 (Except.ok "  ")
        (Except.ok sampleNotes)).genCalls = 0 ∧
     (handleFileUpload sampleState 7 (Except.ok "  ")
        (Except.ok sampleNotes)).state.history = sampleState.history ∧
     (handleFileUpload sampleState 7 (Except.ok "  ")
        (Except.ok sampleNotes)).state.error = some emptyDocumentMessage) :=
  ⟨by decide,
   upload_empty_document_no_generation sampleState 7 "  " (Except.ok sampleNotes)
     (by decide)⟩

/-- C4 counterexample: ids come from `Date.now().toString()`, so two distinct
items created by successful generations in the same millisecond carry the
same id and coexist in the history — id values are not unique in general. -/
theorem duplicate_ids_same_millisecond :
    mkNoteHistoryItem 5 "first" sampleNotes ≠ mkNoteHistoryItem 5 "second" sampleNotes ∧
    (mkNoteHistoryItem 5 "first" sampleNotes).id
        = (mkNoteHistoryItem 5 "second" sampleNotes).id ∧
    recordHistory (mkNoteHistoryItem 5 "second" sampleNotes)
        (recordHistory (mkNoteHistoryItem 5 "first" sampleNotes) [])
      = [mkNoteHistoryItem 5 "second" sampleNotes,
         mkNoteHistoryItem 5 "first" sampleNotes] := by
  refine ⟨by decide, rfl, rfl⟩

/-- C4 amended: the id of a history item is the decimal rendering of its
creation time, so any two items created at distinct `Date.now()` values have
distinct ids; uniqueness can fail only when two creations share one
millisecond. -/
theorem ids_distinct_of_distinct_times
    (t1 t2 : Nat) (a b : String) (n m : StudyNotes) (h : t1 ≠ t2) :
    (mkNoteHistoryItem t1 a n).id ≠ (mkNoteHistoryItem t2 b m).id := by
  intro hid
  exact h (natRepr_injective t1 t2 hid)

theorem ids_distinct_of_distinct_times_witness :
    (5 : Nat) ≠ 7 ∧
    (mkNoteHistoryItem 5 "first" sampleNotes).id
        ≠ (mkNoteHistoryItem 7 "second" sampleNotes).id :=
  ⟨by decide, ids_distinct_of_distinct_times 5 7 "first" "second"
      sampleNotes sampleNotes (by decide)⟩

/-- C5: selecting a history entry is a pure state overwrite and idempotent:
current notes and input text are set to the stored item's values, the
history list, error slot and loading flag are untouched, and selecting the
same item twice equals selecting it once. -/
theorem select_history_pure_overwrite_idempotent
    (st : AppState) (item : NoteHistoryItem) :
    (selectHistoryItem st item).notes = some item.notes ∧
    (selectHistoryItem st item).inputText = item.originalText ∧
    (selectHistoryItem st item).history = st.history ∧
    (selectHistoryItem st item).error = st.error ∧
    (selectHistoryItem st item).loading = st.loading ∧
    selectHistoryItem (selectHistoryItem st item) item = selectHistoryItem st item :=
  ⟨rfl, rfl, rfl, rfl, rfl, rfl⟩

/-- C6: serializing a history list to the storage representation and loading
it back — the stored document parses to exactly the serialized value, which
decodes field-for-field — yields the original ordered sequence. -/
theorem history_storage_roundtrip (h : List NoteHistoryItem) :
    (loadHistory (some (some (historyToJson h)))).1 = historyToJson h ∧
    historyFromJson (historyToJson h) = some h :=
  ⟨rfl, historyFromJson_historyToJson h⟩

/-- C7: when the stored history value is absent, or present but not
parseable as JSON, loading yields the empty history and sets no user-visible
error (the failure is only logged). -/
theorem load_absent_or_unparseable_empty (stored : Option (Option Json))
    (h : stored = none ∨ stored = some none) :
    loadHistory stored = (Json.arr [], none) := by
  rcases h with h | h <;> rw [h] <;> rfl

theorem load_absent_or_unparseable_empty_witness :
    ((none : Option (Option Json)) = none ∨
      (none : Option (Option Json)) = some none) ∧
    loadHistory none = (Json.arr [], none) :=
  ⟨Or.inl rfl, load_absent_or_unparseable_empty none (Or.inl rfl)⟩

/-- C8 counterexample: for a single-page document with one fragment "a" the
code produces "a\n" — a newline is appended after the last page — while the
claimed between-pages-only joining gives "a", so "nothing else added"
fails. -/
theorem extract_pdf_adds_trailing_newline :
    extractPdfText [["a"]] = "a\n" ∧
    extractPdfTextClaimed [["a"]] = "a" ∧
    extractPdfText [["a"]] ≠ extractPdfTextClaimed [["a"]] := by
  refine ⟨by decide, by decide, by decide⟩

/-- C8 amended: extraction emits the pages in page order with in-page
fragments joined by single spaces, but appends a newline after every page
including the last: for a non-empty page list the result is the claimed
between-pages joining followed by one trailing newline. -/
theorem extract_pdf_pages_trailing_newline (pages : List (List String))
    (h : pages ≠ []) :
    extractPdfText pages = extractPdfTextClaimed pages ++ "\n" := by
  induction pages with
  | nil => exact absurd rfl h
  | cons p ps ih =>
    cases ps with
    | nil => simp [extractPdfText, extractPdfTextClaimed, String.empty_append]
    | cons q qs =>
      rw [extractPdfText_cons, ih (by simp)]
      simp [extractPdfTextClaimed, String.append_assoc]

theorem extract_pdf_pages_trailing_newline_witness :
    ([["a", "b"], ["c"]] : List (List String)) ≠ [] ∧
    extractPdfText [["a", "b"], ["c"]]
        = extractPdfTextClaimed [["a", "b"], ["c"]] ++ "\n" :=
  ⟨by simp, extract_pdf_pages_trailing_newline [["a", "b"], ["c"]] (by simp)⟩

/-- C9: on the upload path, non-blank extracted text is written to the input
slot before the generation call, so for every generation outcome the final
input text equals the extracted text; in particular after a generation
failure the input text still holds the extracted text (not rolled back) and
the error message is displayed. -/
theorem upload_failure_keeps_extracted_text
    (st : AppState) (now : Nat) (txt msg : String)
    (gen : Except String StudyNotes) (hne : isBlank txt = false) :
    (handleFileUpload st now (Except.ok txt) gen).state.inputText = txt ∧
    (handleFileUpload st now (Except.ok txt) (Except.error msg)).state.error
        = some msg := by
  constructor
  · cases gen <;> simp [handleFileUpload, hne]
  · simp [handleFileUpload, hne]

theorem upload_failure_keeps_extracted_text_witness :
    isBlank "extracted text" = false ∧
    ((handleFileUpload sampleState 7 (Except.ok "extracted text")
        (Except.error "Analysis failed")).state.inputText = "extracted text" ∧
     (handleFileUpload sampleState 7 (Except.ok "extracted text")
        (Except.error "Analysis failed")).state.error = some "Analysis failed") :=
  ⟨by decide, upload_failure_keeps_extracted_text sampleState 7 "extracted text"
      "Analysis failed" (Except.error "Analysis failed") (by decide)⟩

/-- C10: when the input text is blank (empty or whitespace-only) the
typed-text submit handler is a complete no-op: the state comes back
unchanged — current notes, error message and history included — the
generation client is called zero times, and the Submitting state is never
entered. -/
theorem submit_blank_input_noop
    (st : AppState) (now : Nat) (gen : Except String StudyNotes)
    (hblank : isBlank st.inputText = true) :
    handleSubmit st now gen
      = { state := st, genCalls := 0, enteredSubmitting := false } := by
  simp [handleSubmit, hblank]

theorem submit_blank_input_noop_witness :
    isBlank (" " : String) = true ∧
    handleSubmit { sampleState with inputText := " " } 7 (Except.ok sampleNotes)
      = { state := { sampleState with inputText := " " }, genCalls := 0,
          enteredSubmitting := false } :=
  ⟨by decide, submit_blank_input_noop { sampleState with inputText := " " } 7
      (Except.ok sampleNotes) (by decide)⟩

end AcademiaMind
